import Mathlib

/-!
# Verification of the hubfs read/write pipeline (index.js)

A shallow embedding of the hubfs source (index.js) in Lean 4.  Byte buffers
become lists of naturals below 256, the remote Github store becomes an
explicit response oracle, and each callback chain of the source becomes a
pure function from the oracle to an outcome.  A JavaScript exception that
escapes a callback is a distinct outcome from an error value passed to the
callback, because the two are observably different to a caller.
-/

namespace Hubfs

/-! ## Base64, as performed by buffer toString and the Buffer constructor

writeFile sends `data.toString("base64")` (index.js line 147) and readFile
rebuilds the buffer with `new Buffer(data.content, data.encoding)` (line 268),
where the Github contents and blobs endpoints answer with base64 content.
We model the standard base64 codec over byte lists: `b64char` is the
alphabet (A-Z, a-z, 0-9, plus, slash), 61 is the ASCII code of the padding
character. -/

/-- The base64 alphabet: sextet 0-25 to A-Z, 26-51 to a-z, 52-61 to 0-9,
62 to plus (43), 63 to slash (47). -/
def b64char (s : Nat) : Nat :=
  if s < 26 then 65 + s
  else if s < 52 then 97 + (s - 26)
  else if s < 62 then 48 + (s - 52)
  else if s = 62 then 43
  else 47

/-- Inverse of the base64 alphabet on its image. -/
def b64val (c : Nat) : Nat :=
  if 65 ≤ c ∧ c ≤ 90 then c - 65
  else if 97 ≤ c ∧ c ≤ 122 then c - 97 + 26
  else if 48 ≤ c ∧ c ≤ 57 then c - 48 + 52
  else if c = 43 then 62
  else if c = 47 then 63
  else 0

/-- Base64 encoding of a byte list: three bytes become four alphabet
characters; a two-byte tail becomes three characters and one padding 61;
a one-byte tail becomes two characters and two paddings. -/
def b64encode : List Nat → List Nat
  | a :: b :: c :: rest =>
      b64char (a / 4) :: b64char (a % 4 * 16 + b / 16) ::
      b64char (b % 16 * 4 + c / 64) :: b64char (c % 64) :: b64encode rest
  | [a, b] => [b64char (a / 4), b64char (a % 4 * 16 + b / 16), b64char (b % 16 * 4), 61]
  | [a] => [b64char (a / 4), b64char (a % 4 * 16), 61, 61]
  | [] => []

/-- Base64 decoding: four characters at a time, padding 61 in the third or
fourth position marking a short final group. -/
def b64decode : List Nat → List Nat
  | c1 :: c2 :: c3 :: c4 :: rest =>
      if c3 = 61 then [b64val c1 * 4 + b64val c2 / 16]
      else if c4 = 61 then
        [b64val c1 * 4 + b64val c2 / 16, b64val c2 % 16 * 16 + b64val c3 / 4]
      else
        (b64val c1 * 4 + b64val c2 / 16) ::
        (b64val c2 % 16 * 16 + b64val c3 / 4) ::
        (b64val c3 % 4 * 64 + b64val c4) :: b64decode rest
  | _ => []

theorem b64val_b64char : ∀ s < 64, b64val (b64char s) = s := by decide

theorem b64char_ne_pad : ∀ s < 64, b64char s ≠ 61 := by decide

/-- The base64 codec is the identity on byte lists: decoding an encoding
recovers the original buffer. -/
theorem b64decode_b64encode :
    ∀ bs : List Nat, (∀ b ∈ bs, b < 256) → b64decode (b64encode bs) = bs
  | [], _ => rfl
  | [a], h => by
      have ha : a < 256 := h a (by simp)
      have h1 : a / 4 < 64 := by omega
      have h2 : a % 4 * 16 < 64 := by omega
      simp only [b64encode, b64decode, reduceIte, b64val_b64char _ h1,
        b64val_b64char _ h2, List.cons.injEq, and_true]
      omega
  | [a, b], h => by
      have ha : a < 256 := h a (by simp)
      have hb : b < 256 := h b (by simp)
      have h1 : a / 4 < 64 := by omega
      have h2 : a % 4 * 16 + b / 16 < 64 := by omega
      have h3 : b % 16 * 4 < 64 := by omega
      simp only [b64encode, b64decode]
      rw [if_neg (b64char_ne_pad _ h3)]
      simp only [reduceIte, b64val_b64char _ h1, b64val_b64char _ h2,
        b64val_b64char _ h3, List.cons.injEq, and_true]
      omega
  | a :: b :: c :: rest, h => by
      have ha : a < 256 := h a (by simp)
      have hb : b < 256 := h b (by simp)
      have hc : c < 256 := h c (by simp)
      have h1 : a / 4 < 64 := by omega
      have h2 : a % 4 * 16 + b / 16 < 64 := by omega
      have h3 : b % 16 * 4 + c / 64 < 64 := by omega
      have h4 : c % 64 < 64 := by omega
      have ih := b64decode_b64encode rest (fun x hx => h x (by simp [hx]))
      simp only [b64encode, b64decode]
      rw [if_neg (b64char_ne_pad _ h3), if_neg (b64char_ne_pad _ h4)]
      simp only [b64val_b64char _ h1, b64val_b64char _ h2, b64val_b64char _ h3,
        b64val_b64char _ h4, List.cons.injEq]
      exact ⟨by omega, by omega, by omega, ih⟩

/-! ## JavaScript-level values

Errors carry the message and the transport status the source inspects
(err.status).  An operation can settle by invoking its callback with an
error, invoking it with a value, or letting a TypeError escape (when the
source dereferences a property of undefined); the three outcomes are
distinguished because they are observably different. -/

/-- A JS error object: message plus the optional transport status code the
source branches on (err.status at index.js lines 181 and 253). -/
structure JsError where
  message : String
  status : Option Nat := none
deriving DecidableEq

/-- Outcome of one asynchronous operation: callback invoked with a value,
callback invoked with an error, or an exception thrown out of a callback
(so the callback is never invoked with the failure). -/
inductive JsOutcome (α : Type) where
  | ok (a : α)
  | err (e : JsError)
  | thrown (msg : String)
deriving DecidableEq

/-! ## The remote store oracle

One structure per Github endpoint the source calls.  Each field maps the
request the source sends to the response the remote answers; `Except` error
means the callback receives (err, undefined). -/

/-- Response of the contents fetch: data.content (base64 characters, the
encoding Github uses on this endpoint) as consumed at index.js line 268. -/
structure ContentsData where
  content : List Nat
deriving DecidableEq

/-- A fetched ref: the field ref.object.sha read at index.js lines 290/345. -/
structure RefObj where
  objectSha : String
deriving DecidableEq

/-- A fetched commit: commit.sha and commit.tree.sha (index.js 293/348). -/
structure CommitObj where
  sha : String
  treeSha : String
deriving DecidableEq

/-- One entry of a recursively fetched tree (index.js 298-301). -/
structure TreeEntryObj where
  path : String
  sha : String
deriving DecidableEq

/-- Response of a recursive tree fetch: the field tree.tree. -/
structure TreesResp where
  tree : List TreeEntryObj
deriving DecidableEq

/-- A created tree or commit: only the sha field is read back. -/
structure CreatedObj where
  sha : String
deriving DecidableEq

/-- Request body for git trees create (index.js 351-361). -/
structure NewTreeEntry where
  path : String
  mode : String
  type : String
  sha : String
deriving DecidableEq

/-- Request body for git trees create: base_tree plus the new entries. -/
structure NewTree where
  baseTree : String
  tree : List NewTreeEntry
deriving DecidableEq

/-- Request body for git commits create (index.js 367-373). -/
structure NewCommit where
  tree : String
  parents : List String
  message : String
deriving DecidableEq

/-- Request body for the ref update (index.js 377-380). -/
structure RefUpdateReq where
  sha : String
  force : Bool
deriving DecidableEq

/-- The params object writeFile sends to the contents add endpoint
(index.js 143-148, sha added at line 184 for the update retry). -/
structure WriteParams where
  path : String
  message : String
  branch : String
  content : List Nat
  sha : Option String := none
deriving DecidableEq

/-- Response of the contents add endpoint as observed by the callback at
index.js line 178: an optional error, and whether the info argument is the
value false (how a nonexistent repo manifests there, per the source check
at line 179 and the repo test expecting the message "Invalid repo"). -/
structure AddResp where
  err : Option JsError := none
  infoIsFalse : Bool := false
deriving DecidableEq

/-- The input _createBlob sends to git blobs create (index.js 316-319):
the base64 content carried by the write params, marked base64. -/
structure BlobInput where
  content : List Nat
  encoding : String
deriving DecidableEq

/-- The full store oracle: one field per remote endpoint used by index.js.
Fetch endpoints take the argument strings exactly as the source builds them
(for example "heads/" ++ branch for refs, sha ++ "?recursive=1" for
recursive trees). -/
structure Store where
  contentsFetch : String → String → Except JsError ContentsData
  contentsShaFetch : String → String → Except JsError String
  contentsAdd : WriteParams → AddResp
  refFetch : String → Except JsError RefObj
  commitFetch : String → Except JsError CommitObj
  treesFetch : String → Except JsError TreesResp
  blobFetch : String → Except JsError ContentsData
  blobsCreate : BlobInput → Except JsError CreatedObj
  treesCreate : NewTree → Except JsError CreatedObj
  commitsCreate : NewCommit → Except JsError CreatedObj
  refUpdate : String → RefUpdateReq → Except JsError CreatedObj

/-! ## Sha resolver (index.js _getBlobSha and _getBlobShaSlow) -/

/-- Embedding of _getBlobShaSlow (index.js 285-305): waterfall of ref fetch,
commit fetch, recursive tree fetch, then the filter over tree.tree.  When no
entry path matches, the source evaluates sha of filter(...)[0] with [0]
undefined, so a TypeError escapes instead of the callback being invoked. -/
def getBlobShaSlow (st : Store) (path refName : String) : JsOutcome String :=
  match st.refFetch ("heads/" ++ refName) with
  | .error e => .err e
  | .ok refObj =>
    match st.commitFetch refObj.objectSha with
    | .error e => .err e
    | .ok commit =>
      match st.treesFetch (commit.treeSha ++ "?recursive=1") with
      | .error e => .err e
      | .ok trees =>
        match trees.tree.filter (fun entry => entry.path = path) with
        | [] => .thrown "TypeError: cannot read sha of undefined"
        | entry :: _ => .ok entry.sha

/-- Embedding of _getBlobSha (index.js 276-283): contents metadata fetch for
the sha; on any error, fall through to the slow resolver. -/
def getBlobSha (st : Store) (path refName : String) : JsOutcome String :=
  match st.contentsShaFetch path refName with
  | .ok sha => .ok sha
  | .error _ => getBlobShaSlow st path refName

/-! ## readFile (index.js 221-274)

The model covers the default output encoding (null), under which the raw
buffer is returned; decoding that buffer to text is transport glue outside
the embedding.  The leading-slash replace at line 242 returns a new string
that the source discards, so the filename is used unchanged (see usedPath
below). -/

/-- Embedding of readFile after validation: direct contents fetch; a 404
becomes the uniform "File not found" error; any other error takes the
fallback of slow sha resolution plus raw blob fetch.  Content is rebuilt
from base64 at line 268 (encodeContents). -/
def readFileRun (st : Store) (filename ref : String) : JsOutcome (List Nat) :=
  match st.contentsFetch filename ref with
  | .ok data => .ok (b64decode data.content)
  | .error e =>
    if e.status = some 404 then .err { message := "File not found" }
    else
      match getBlobShaSlow st filename ref with
      | .err e2 => .err e2
      | .thrown m => .thrown m
      | .ok sha =>
        match st.blobFetch sha with
        | .error e2 => .err e2
        | .ok data => .ok (b64decode data.content)

/-! ## writeFile (index.js 107-199) -/

/-- The options record after extending writeDefaults (index.js 120-127).
The documented create-only option is the field flag, defaulted to "w"; the
field flags has no default and is never documented, yet line 181 reads
options.flags. -/
structure WriteOptions where
  encoding : String := "utf8"
  message : Option String := none
  branch : String := "master"
  flag : String := "w"
  flags : Option String := none
  safe : Bool := false
deriving DecidableEq

/-- The params object built at index.js 143-148: path is the filename as
passed (the replace on line 134 is discarded), content is the base64 of the
data buffer, message defaults to "Update/create " ++ filename. -/
def mkWriteParams (filename : String) (data : List Nat) (options : WriteOptions) :
    WriteParams :=
  { path := filename
    message := options.message.getD ("Update/create " ++ filename)
    branch := options.branch
    content := b64encode data
    sha := none }

/-- Embedding of the fast-path write (index.js 173-198), returning the
outcome together with the list of contents add requests issued, in order.
First add carries no sha; if the info argument is the value false the
outcome is the "Invalid repo" error; no error means success; an error whose
status is not 422, or options.flags equal to "wx", is surfaced as is;
otherwise the sha is resolved and a second add carrying it is issued. -/
def writeFastRun (st : Store) (filename : String) (data : List Nat)
    (options : WriteOptions) : JsOutcome Unit × List WriteParams :=
  let params := mkWriteParams filename data options
  let resp := st.contentsAdd params
  if resp.infoIsFalse then (.err { message := "Invalid repo" }, [params])
  else
    match resp.err with
    | none => (.ok (), [params])
    | some e =>
      if e.status ≠ some 422 ∨ options.flags = some "wx" then (.err e, [params])
      else
        match getBlobSha st params.path params.branch with
        | .err e2 => (.err e2, [params])
        | .thrown m => (.thrown m, [params])
        | .ok sha =>
          let retryParams := { params with sha := some sha }
          match (st.contentsAdd retryParams).err with
          | none => (.ok (), [params, retryParams])
          | some e2 => (.err e2, [params, retryParams])

/-! ## Write coordination (index.js 136-171)

The per-branch status record and the routing decision for an incoming
write. -/

/-- The per-branch status record (index.js statuses[id]): writing true while
a fast-path write is in flight, queueing true while a batch is open or
draining, hasNext true when the deferred resume at status.next is set. -/
structure BranchStatus where
  writing : Bool := false
  queueing : Bool := false
  hasNext : Bool := false
deriving DecidableEq

/-- Which path a submitted write takes. -/
inductive Route where
  | fast
  | queued
deriving DecidableEq

/-- Embedding of the routing logic of writeFile (index.js 152-174): first,
when a fast-path write is in flight and no resume is registered, register
the single deferred resume (lines 152-158); then route: when options.safe
or a write in flight or a batch queueing, push into the blob queue and set
queueing (lines 160-167), else take the fast path and set writing
(line 174). -/
def writeRoute (safe : Bool) (st : BranchStatus) : Route × BranchStatus :=
  let st1 := if st.writing && !st.hasNext then { st with hasNext := true } else st
  if safe || st1.writing || st1.queueing then
    (Route.queued, { st1 with queueing := true })
  else
    (Route.fast, { st1 with writing := true })

/-! ## The commit batch pipeline (index.js _createBlob and _commit) -/

/-- A tree entry produced by _createBlob (index.js 315-329): path, message
carried over from the write params, and the sha of the created blob. -/
structure FileEntry where
  path : String
  sha : String
  message : Option String := none
deriving DecidableEq

/-- The body _createBlob posts (index.js 316-319): the content of the write
params with encoding base64. -/
def createBlobInput (params : WriteParams) : BlobInput :=
  { content := params.content, encoding := "base64" }

/-- Embedding of _createBlob (index.js 315-329): create a blob from the
params content; on success hand the batch a FileEntry carrying the path,
the commit message fragment and the new blob sha. -/
def createBlobRun (st : Store) (params : WriteParams) : JsOutcome FileEntry :=
  match st.blobsCreate (createBlobInput params) with
  | .error e => .err e
  | .ok resp => .ok { path := params.path, sha := resp.sha, message := some params.message }

/-- The commit message built at index.js 370-372: a left fold over the
batch starting from "Added new files" and two newlines, appending per entry
the path, a colon and space, the message (empty when absent) and a
newline. -/
def commitMessage (files : List FileEntry) : String :=
  files.foldl
    (fun prev curr => prev ++ curr.path ++ ": " ++ curr.message.getD "" ++ "\n")
    "Added new files\n\n"

/-- One remote call issued by the commit pipeline, recorded in order. -/
inductive StoreCall where
  | refFetch (name : String)
  | commitFetch (sha : String)
  | treesCreate (t : NewTree)
  | commitsCreate (c : NewCommit)
  | refUpdate (name : String) (r : RefUpdateReq)
deriving DecidableEq

/-- Embedding of _commit (index.js 340-384), returning the outcome and the
ordered trace of remote calls.  The waterfall propagates errors of the ref
fetch, the commit fetch, the commit create and the ref update to its final
callback; but on a tree create error the source evaluates tree.sha with
tree undefined (line 363), so a TypeError escapes and the final callback is
never invoked. -/
def commitRun (st : Store) (files : List FileEntry) (branch : String) :
    JsOutcome CreatedObj × List StoreCall :=
  let refName := "heads/" ++ branch
  let trace0 := [StoreCall.refFetch refName]
  match st.refFetch refName with
  | .error e => (.err e, trace0)
  | .ok refObj =>
    let trace1 := trace0 ++ [StoreCall.commitFetch refObj.objectSha]
    match st.commitFetch refObj.objectSha with
    | .error e => (.err e, trace1)
    | .ok tip =>
      let newTree : NewTree :=
        { baseTree := tip.treeSha
          tree := files.map fun f => { path := f.path, mode := "100644", type := "blob", sha := f.sha } }
      let trace2 := trace1 ++ [StoreCall.treesCreate newTree]
      match st.treesCreate newTree with
      | .error _ => (.thrown "TypeError: cannot read sha of undefined", trace2)
      | .ok created =>
        let newCommit : NewCommit :=
          { tree := created.sha, parents := [tip.sha], message := commitMessage files }
        let trace3 := trace2 ++ [StoreCall.commitsCreate newCommit]
        match st.commitsCreate newCommit with
        | .error e => (.err e, trace3)
        | .ok commit =>
          let upd : RefUpdateReq := { sha := commit.sha, force := true }
          let trace4 := trace3 ++ [StoreCall.refUpdate refName upd]
          match st.refUpdate refName upd with
          | .error e => (.err e, trace4)
          | .ok r => (.ok r, trace4)

/-! ## Path handling (index.js 133-134 and 241-242) -/

/-- Semantics of the JS expression filename.replace with the anchored slash
pattern: a fresh string with one leading slash removed. -/
def replaceLeadingSlash (s : String) : String :=
  match s.data with
  | c :: rest => if c = '/' then String.mk rest else s
  | [] => s

/-- The path both writeFile and readFile actually use: JS strings are
immutable and replace returns a new string, but lines 134 and 242 discard
that return value, so the original filename flows into the request
unchanged. -/
def usedPath (filename : String) : String :=
  let _ := replaceLeadingSlash filename
  filename

/-! ## Module-level coordination state (index.js 5-7 and 136-140) -/

/-- A Hubfs instance as built by the constructor (index.js 83-84): only the
string reponame, owner ++ "/" ++ repo, enters the coordination key. -/
structure HubfsInst where
  reponame : String
deriving DecidableEq

/-- The constructor (index.js 72-85). -/
def mkHubfs (owner repo : String) : HubfsInst :=
  { reponame := owner ++ "/" ++ repo }

/-- The id string keying the module-level maps (index.js 137):
reponame ++ "/" ++ branch. -/
def branchKey (inst : HubfsInst) (branch : String) : String :=
  inst.reponame ++ "/" ++ branch

/-- One of the module-level maps queues, cargos, statuses (index.js 5-7):
entries are looked up by the id string only; nothing ever removes an
entry. -/
structure Registry (α : Type) where
  find : String → Option α

/-- The idiom m[id] = m[id] or fresh (index.js 138-140): reuse the entry
when present, otherwise create and retain it. -/
def getOrCreate {α : Type} (r : Registry α) (key : String) (fresh : α) :
    α × Registry α :=
  match r.find key with
  | some a => (a, r)
  | none => (fresh, ⟨fun k => if k = key then some fresh else r.find k⟩)

/-! ## Concrete stores used to evaluate the code at failing inputs -/

/-- A store whose every endpoint fails; concrete stores below override the
endpoints a scenario reaches. -/
def deadStore : Store :=
  { contentsFetch := fun _ _ => .error { message := "unused" }
    contentsShaFetch := fun _ _ => .error { message := "unused" }
    contentsAdd := fun _ => { err := some { message := "unused" } }
    refFetch := fun _ => .error { message := "unused" }
    commitFetch := fun _ => .error { message := "unused" }
    treesFetch := fun _ => .error { message := "unused" }
    blobFetch := fun _ => .error { message := "unused" }
    blobsCreate := fun _ => .error { message := "unused" }
    treesCreate := fun _ => .error { message := "unused" }
    commitsCreate := fun _ => .error { message := "unused" }
    refUpdate := fun _ _ => .error { message := "unused" } }

/-- Store for the batch whose tree creation fails: ref and commit fetches
succeed, git trees create answers 422. -/
def stTreeFail : Store :=
  { deadStore with
    refFetch := fun _ => .ok { objectSha := "tipsha" }
    commitFetch := fun _ => .ok { sha := "tipsha", treeSha := "basetree" }
    treesCreate := fun _ => .error { message := "Validation Failed", status := some 422 } }

/-- The one-entry batch used with stTreeFail. -/
def batch1 : List FileEntry :=
  [{ path := "a.txt", sha := "blobsha1", message := some "Update/create a.txt" }]

/-- Store for a read whose direct fetch fails with a non-404 error (the
size-limit signal) and whose branch tree has no entry for the requested
path. -/
def stNoEntry : Store :=
  { deadStore with
    contentsFetch := fun _ _ => .error { message := "Server Error", status := some 500 }
    refFetch := fun _ => .ok { objectSha := "tipsha" }
    commitFetch := fun _ => .ok { sha := "tipsha", treeSha := "basetree" }
    treesFetch := fun _ => .ok { tree := [{ path := "other.txt", sha := "sha9" }] } }

/-- Store for an update of an existing large file: the create add answers
422 (path exists), the contents metadata fetch also fails (size limit), and
the branch tree again lacks the path, driving writeFile into the slow
resolver. -/
def stWriteNoEntry : Store :=
  { stNoEntry with
    contentsAdd := fun _ => { err := some { message := "Validation Failed", status := some 422 } }
    contentsShaFetch := fun _ _ => .error { message := "Server Error", status := some 500 } }

/-- Store for a write against a path that already exists: the first add
(no sha) answers 422, the sha lookup succeeds, an add carrying a sha
succeeds. -/
def stExisting : Store :=
  { deadStore with
    contentsAdd := fun p =>
      match p.sha with
      | none => { err := some { message := "Validation Failed", status := some 422 } }
      | some _ => {}
    contentsShaFetch := fun _ _ => .ok "existingsha" }

/-- Store modelling a nonexistent repository: the contents add endpoint
hands the callback info equal to false, and every fetch answers 404 (the
remote reports a missing repository exactly as it reports a missing path,
which the repo test suite for reads relies on). -/
def stBadRepo : Store :=
  { deadStore with
    contentsAdd := fun _ => { infoIsFalse := true }
    contentsFetch := fun _ _ => .error { message := "Not Found", status := some 404 } }

/-- Store for an existing repository that lacks the requested path: the
contents fetch answers 404. -/
def stMissingFile : Store :=
  { deadStore with
    contentsFetch := fun _ _ => .error { message := "Not Found", status := some 404 } }

/-! ## Claim theorems -/

/-- Claim C1 (code bug): the claim states that when any step of the batched
pipeline fails, every pending writer receives the same single error and the
ref is not updated.  Evaluating _commit at a batch whose tree creation
fails shows the code instead throwing: the waterfall callback, which would
deliver the error to every writer of the batch, receives tree.sha with tree
undefined (index.js 363), so a TypeError escapes, the outcome is thrown
rather than an error value, and no pending writer is ever called; the trace
stops at the tree create and contains no ref update. -/
theorem batch_tree_failure_throws :
    commitRun stTreeFail batch1 "master"
      = (.thrown "TypeError: cannot read sha of undefined",
         [.refFetch "heads/master", .commitFetch "tipsha",
          .treesCreate { baseTree := "basetree",
                         tree := [{ path := "a.txt", mode := "100644", type := "blob",
                                    sha := "blobsha1" }] }]) ∧
    ∀ r, StoreCall.refUpdate "heads/master" r ∉ (commitRun stTreeFail batch1 "master").2 := by
  refine ⟨rfl, fun r => ?_⟩
  simp [commitRun, stTreeFail, deadStore, batch1]

/-- Claim C5 (code bug): the claim states that a read of an absent path
reports the uniform "File not found" error no matter which path detects the
absence.  When the direct fetch fails with a non-404 (size-limit) error and
the branch tree has no entry for the path, the fallback resolver evaluates
sha of filter(...)[0] with [0] undefined (index.js 299-301), so readFile
throws a TypeError instead of reporting the uniform error. -/
theorem read_fallback_missing_throws :
    readFileRun stNoEntry "missing.txt" "master"
        = .thrown "TypeError: cannot read sha of undefined" ∧
    readFileRun stNoEntry "missing.txt" "master"
        ≠ .err { message := "File not found" } := by
  exact ⟨rfl, by decide⟩

/-- Claim C7 (code bug): the claim states that a fast-path write carrying
the strict create-only flag "wx" fails on a conflict without a retry.  The
documented option (doc comment at index.js 98, writeDefaults at line 124)
is named flag, but line 181 reads options.flags; so with the documented
flag equal to "wx" a 422 conflict is followed by a sha resolve and a second
add carrying the sha, which succeeds and overwrites.  Only the undocumented
key flags produces the claimed fail-without-retry behaviour. -/
theorem createonly_documented_flag_retries :
    (writeFastRun stExisting "exists.txt" [104] { flag := "wx" }).1 = .ok () ∧
    (writeFastRun stExisting "exists.txt" [104] { flag := "wx" }).2 =
      [mkWriteParams "exists.txt" [104] { flag := "wx" },
       { mkWriteParams "exists.txt" [104] { flag := "wx" } with sha := some "existingsha" }] ∧
    (writeFastRun stExisting "exists.txt" [104] { flags := some "wx" }).1
      = .err { message := "Validation Failed", status := some 422 } :=
  ⟨rfl, rfl, rfl⟩

/-- Claim C8 (code bug): the claim states that after validation no store
response can make writeFile or readFile throw.  An update of an existing
file whose metadata fetch fails on size drives writeFile into the slow
resolver; when the branch tree lacks the path, index.js line 301 reads sha
of undefined and the operation throws a TypeError instead of delivering an
error value to the callback. -/
theorem write_resolver_missing_throws :
    (writeFastRun stWriteNoEntry "big.bin" [104] {}).1
        = .thrown "TypeError: cannot read sha of undefined" ∧
    getBlobShaSlow stWriteNoEntry "big.bin" "master"
        = .thrown "TypeError: cannot read sha of undefined" :=
  ⟨rfl, rfl⟩

/-- Claim C9 (code bug): the claim states that both operations strip a
leading slash before using the path.  JS strings are immutable and replace
returns a new string, but index.js lines 134 and 242 discard that return
value, so the path actually used keeps its leading slash: a write or read
of "/a/b" addresses a different string than one of "a/b", while the
discarded replace result would have been the stripped "a/b". -/
theorem leading_slash_not_stripped :
    usedPath "/a/b" = "/a/b" ∧
    replaceLeadingSlash "/a/b" = "a/b" ∧
    usedPath "/a/b" ≠ usedPath "a/b" :=
  ⟨rfl, rfl, by decide⟩

/-- Claim C10 (confirmed): the coordination maps are module level and keyed
only by the string owner slash repo slash branch (index.js 5-7, 84, 137),
so two Hubfs instances built from the same owner and repo share, for each
branch, one queue, one cargo and one status record: the key computed by
either instance is the same string, and a lookup through the second
instance returns the entry created through the first, whatever fresh value
the second lookup would have inserted.  Nothing ever removes an entry from
a Registry, matching retention for the life of the process. -/
theorem shared_coordination_state (owner repo branch : String) {α : Type}
    (reg : Registry α) (fresh1 fresh2 : α) :
    branchKey (mkHubfs owner repo) branch = owner ++ "/" ++ repo ++ "/" ++ branch ∧
    (getOrCreate ((getOrCreate reg (branchKey (mkHubfs owner repo) branch) fresh1).2)
        (branchKey (mkHubfs owner repo) branch) fresh2).1
      = (getOrCreate reg (branchKey (mkHubfs owner repo) branch) fresh1).1 := by
  constructor
  · simp [branchKey, mkHubfs, String.append_assoc]
  · rcases h : reg.find (branchKey (mkHubfs owner repo) branch) with _ | a
    · simp [getOrCreate, h]
    · simp [getOrCreate, h]

/-- Claim C3 (confirmed): the routing decision of writeFile (index.js
160-174).  With no write in flight, no batch queueing and no request for
batched semantics, the write takes the fast path and writing becomes true;
in every other case the write is routed into the queue and queueing becomes
true, so a write arriving while the branch is busy is always captured. -/
theorem write_routing (safe : Bool) (st : BranchStatus) :
    (st.writing = false → st.queueing = false → safe = false →
      (writeRoute safe st).1 = Route.fast ∧ ((writeRoute safe st).2).writing = true) ∧
    ((safe = true ∨ st.writing = true ∨ st.queueing = true) →
      (writeRoute safe st).1 = Route.queued ∧ ((writeRoute safe st).2).queueing = true) := by
  rcases st with ⟨w, q, n⟩
  cases safe <;> cases w <;> cases q <;> cases n <;> decide

/-- Witness for write_routing: an idle branch with no batched request goes
fast; a request with batched semantics on the same idle branch queues. -/
theorem write_routing_witness :
    (writeRoute false {}).1 = Route.fast ∧ (writeRoute true {}).1 = Route.queued :=
  ⟨((write_routing false {}).1 rfl rfl rfl).1, ((write_routing true {}).2 (Or.inl rfl)).1⟩

/-- Store for a fully successful batch commit, used as the
commit_pipeline_order witness. -/
def stPipeline : Store :=
  { deadStore with
    refFetch := fun _ => .ok { objectSha := "tipsha" }
    commitFetch := fun _ => .ok { sha := "tipsha", treeSha := "basetree" }
    treesCreate := fun _ => .ok { sha := "newtreesha" }
    commitsCreate := fun _ => .ok { sha := "newcommitsha" }
    refUpdate := fun _ _ => .ok { sha := "newcommitsha" } }

/-- Claim C2 (confirmed): when every step succeeds, _commit issues exactly,
and in this order: the branch ref fetch, the tip commit fetch, a tree
create whose base is the tip tree overlaid with one mode-100644 blob entry
per file, a commit create whose sole parent is the tip and whose message is
"Added new files" plus two newlines followed per entry by path, colon,
space, message and newline, and finally the forced ref update to the new
commit. -/
theorem commit_pipeline_order (st : Store) (files : List FileEntry) (branch : String)
    (refObj : RefObj) (tip : CommitObj) (newTreeSha newCommitSha : String)
    (res : CreatedObj)
    (h1 : st.refFetch ("heads/" ++ branch) = .ok refObj)
    (h2 : st.commitFetch refObj.objectSha = .ok tip)
    (h3 : st.treesCreate
            { baseTree := tip.treeSha,
              tree := files.map fun f =>
                { path := f.path, mode := "100644", type := "blob", sha := f.sha } }
          = .ok { sha := newTreeSha })
    (h4 : st.commitsCreate
            { tree := newTreeSha, parents := [tip.sha], message := commitMessage files }
          = .ok { sha := newCommitSha })
    (h5 : st.refUpdate ("heads/" ++ branch) { sha := newCommitSha, force := true }
          = .ok res) :
    commitRun st files branch =
      (.ok res,
       [.refFetch ("heads/" ++ branch),
        .commitFetch refObj.objectSha,
        .treesCreate
          { baseTree := tip.treeSha,
            tree := files.map fun f =>
              { path := f.path, mode := "100644", type := "blob", sha := f.sha } },
        .commitsCreate
          { tree := newTreeSha, parents := [tip.sha],
            message := files.foldl
              (fun prev curr => prev ++ curr.path ++ ": " ++ curr.message.getD "" ++ "\n")
              "Added new files\n\n" },
        .refUpdate ("heads/" ++ branch) { sha := newCommitSha, force := true }]) := by
  have h4u := h4
  simp only [commitMessage] at h4u
  simp only [commitRun, h1, h2, h3, commitMessage, h4u, h5, List.cons_append,
    List.nil_append, List.append_assoc]

/-- Witness for commit_pipeline_order at a one-entry batch on master. -/
theorem commit_pipeline_order_witness :
    commitRun stPipeline batch1 "master" =
      (.ok { sha := "newcommitsha" },
       [.refFetch "heads/master", .commitFetch "tipsha",
        .treesCreate { baseTree := "basetree",
                       tree := [{ path := "a.txt", mode := "100644", type := "blob",
                                  sha := "blobsha1" }] },
        .commitsCreate { tree := "newtreesha", parents := ["tipsha"],
                         message := "Added new files\n\na.txt: Update/create a.txt\n" },
        .refUpdate "heads/master" { sha := "newcommitsha", force := true }]) :=
  commit_pipeline_order stPipeline batch1 "master" { objectSha := "tipsha" }
    { sha := "tipsha", treeSha := "basetree" } "newtreesha" "newcommitsha"
    { sha := "newcommitsha" } rfl rfl rfl rfl rfl

/-- Claim C4 (confirmed): a successful write of byte content c at path p
followed by a read of p returns exactly c.  The write uploads the base64 of
c, as the content of the write params on the direct path and as the blob
body on the batched path; the store hypotheses say each fetch returns the
uploaded content.  On the direct read the contents fetch succeeds and the
buffer is rebuilt from base64; on the large-object read the direct fetch
fails with a non-404 error, the slow resolver walks ref, commit and
recursive tree to the matching entry, and the raw blob fetch returns the
same base64.  Both reads decode to c because the base64 codec round-trips
on byte lists. -/
theorem write_read_roundtrip (c : List Nat) (hc : ∀ b ∈ c, b < 256)
    (options : WriteOptions) (stS stL : Store) (p ref : String)
    (hS : stS.contentsFetch p ref = .ok { content := (mkWriteParams p c options).content })
    (e : JsError) (hL1 : stL.contentsFetch p ref = .error e) (hL2 : ¬e.status = some 404)
    (refObj : RefObj) (hL3 : stL.refFetch ("heads/" ++ ref) = .ok refObj)
    (tip : CommitObj) (hL4 : stL.commitFetch refObj.objectSha = .ok tip)
    (trees : TreesResp)
    (hL5 : stL.treesFetch (tip.treeSha ++ "?recursive=1") = .ok trees)
    (entry : TreeEntryObj) (rest : List TreeEntryObj)
    (hL6 : trees.tree.filter (fun en => en.path = p) = entry :: rest)
    (hL7 : stL.blobFetch entry.sha
           = .ok { content := (createBlobInput (mkWriteParams p c options)).content }) :
    readFileRun stS p ref = .ok c ∧ readFileRun stL p ref = .ok c := by
  constructor
  · simp only [readFileRun, hS, mkWriteParams]
    rw [b64decode_b64encode c hc]
  · simp only [readFileRun, hL1, if_neg hL2, getBlobShaSlow, hL3, hL4, hL5, hL6, hL7,
      createBlobInput, mkWriteParams]
    rw [b64decode_b64encode c hc]

/-- The byte content used by the roundtrip witness. -/
def cBytes : List Nat := [104, 101, 121]

/-- Witness store for the direct (small content) read: the contents fetch
returns the base64 the write uploaded. -/
def stRoundSmall : Store :=
  { deadStore with contentsFetch := fun _ _ => .ok { content := b64encode cBytes } }

/-- Witness store for the fallback (large content) read: direct fetch fails
non-404, the walk finds the entry, the blob fetch returns the uploaded
base64. -/
def stRoundLarge : Store :=
  { deadStore with
    contentsFetch := fun _ _ => .error { message := "Server Error", status := some 500 }
    refFetch := fun _ => .ok { objectSha := "tipsha" }
    commitFetch := fun _ => .ok { sha := "tipsha", treeSha := "basetree" }
    treesFetch := fun _ => .ok { tree := [{ path := "hey.txt", sha := "blobsha7" }] }
    blobFetch := fun _ => .ok { content := b64encode cBytes } }

/-- Witness for write_read_roundtrip on the three bytes of "hey" at path
"hey.txt", through both the direct and the fallback read. -/
theorem write_read_roundtrip_witness :
    readFileRun stRoundSmall "hey.txt" "master" = .ok cBytes ∧
    readFileRun stRoundLarge "hey.txt" "master" = .ok cBytes :=
  write_read_roundtrip cBytes (by decide) {} stRoundSmall stRoundLarge "hey.txt" "master"
    rfl { message := "Server Error", status := some 500 } rfl (by decide)
    { objectSha := "tipsha" } rfl { sha := "tipsha", treeSha := "basetree" } rfl
    { tree := [{ path := "hey.txt", sha := "blobsha7" }] } rfl
    { path := "hey.txt", sha := "blobsha7" } [] rfl rfl

/-- Claim C6 counterexample: reading from a nonexistent repository does not
yield a distinguishable invalid-repository error.  The remote answers a
missing repository with the same 404 the contents endpoint uses for a
missing path (the repo test suite asserts exactly this, expecting the
message "File not found" when reading from a repo name that does not
exist), so readFile reports the very same error value as a missing file in
a valid repo. -/
theorem invalid_repo_read_counterexample :
    readFileRun stBadRepo "test.txt" "master" = .err { message := "File not found" } ∧
    readFileRun stBadRepo "test.txt" "master"
      = readFileRun stMissingFile "dontexist.txt" "master" :=
  ⟨rfl, rfl⟩

/-- Claim C6 as amended (proved): writing to a nonexistent repository
yields the "Invalid repo" error, distinguishable from "File not found";
reading from a nonexistent repository yields the same uniform "File not
found" error as a missing file, with no invalid-repository discrimination
on the read path. -/
theorem invalid_repo_errors_amended (stw str : Store) (fname readPath ref : String)
    (data : List Nat) (options : WriteOptions)
    (hw : (stw.contentsAdd (mkWriteParams fname data options)).infoIsFalse = true)
    (e : JsError) (hr : str.contentsFetch readPath ref = .error e)
    (he : e.status = some 404) :
    (writeFastRun stw fname data options).1 = .err { message := "Invalid repo" } ∧
    readFileRun str readPath ref = .err { message := "File not found" } ∧
    ({ message := "Invalid repo" } : JsError) ≠ { message := "File not found" } := by
  refine ⟨?_, ?_, by decide⟩
  · simp [writeFastRun, hw]
  · simp [readFileRun, hr, he]

/-- Witness for invalid_repo_errors_amended at the nonexistent-repository
store. -/
theorem invalid_repo_errors_amended_witness :
    (writeFastRun stBadRepo "test.txt" [104] {}).1 = .err { message := "Invalid repo" } ∧
    readFileRun stBadRepo "test.txt" "master" = .err { message := "File not found" } ∧
    ({ message := "Invalid repo" } : JsError) ≠ { message := "File not found" } :=
  invalid_repo_errors_amended stBadRepo stBadRepo "test.txt" "test.txt" "master" [104] {}
    rfl { message := "Not Found", status := some 404 } rfl rfl

end Hubfs
